import Mathlib

/-!
Formal model of the serial-link frame reassembly and detection-event handling
implemented by the flying-waste-bin repository's wired display scripts.

The embedding covers:
* the line-oriented reassembly state machine of
  `test_wired_display_simple.py` (`ESP32CamWiredDisplay.process_serial_line`
  and `process_complete_frame`);
* the text/binary reassembly and detection machine of
  `test_esp32_wired_display.py` (`ESP32CamWiredTester.process_data` and
  `process_received_frame`);
* the zone classification and command mapping of
  `computer_controller.py` (`MotionDetectionController.process_frame`) and of
  the `OBJECT_DETECTED` handlers in `test_esp32_wired_display.py`,
  `test_esp32_direct.py` and `test_esp32_simple_display.py`;
* the command-debounce loop of `computer_controller.py`
  (`run_with_esp32_stream` / `run_with_local_camera`).

Lines are modelled as `List Char`; binary payload bytes as `List Nat`.
External capabilities (the serial port, `cv2.imdecode`, windows, clocks) are
outside the model: the handoff of a byte buffer to the JPEG decoder is
recorded as an emitted event rather than performed.
-/

/-- Value of a decimal digit character, `none` for a non-digit.  Used to model
Python's built-in `int()` applied to the colon-separated protocol fields. -/
def digitVal (c : Char) : Option Nat :=
  if c.isDigit then some (c.toNat - '0'.toNat) else none

/-- Accumulate decimal digits left to right; fails on the first non-digit. -/
def parseDigitsAux : List Char → Nat → Option Nat
  | [], acc => some acc
  | c :: cs, acc =>
    match digitVal c with
    | none => none
    | some d => parseDigitsAux cs (10 * acc + d)

/-- Parse a non-empty all-digit string as a natural number. -/
def parseDigitList : List Char → Option Nat
  | [] => none
  | c :: cs => parseDigitsAux (c :: cs) 0

/-- Model of Python's built-in `int(str)` on the strings this protocol feeds
it: an optional sign followed by one or more decimal digits.  (Python's
tolerance for surrounding whitespace and embedded underscores is not used by
any protocol field and is not modelled.)  `none` models a raised
`ValueError`. -/
def pyInt (cs : List Char) : Option Int :=
  match cs with
  | '-' :: rest => (parseDigitList rest).map (fun n => -(n : Int))
  | '+' :: rest => (parseDigitList rest).map (fun n => (n : Int))
  | _ => (parseDigitList cs).map (fun n => (n : Int))

/-- Model of Python's `str.split(":")`: split a line at every colon, keeping
empty pieces, with `[""]` for the empty string. -/
def splitFields : List Char → List (List Char)
  | [] => [[]]
  | c :: cs =>
    if c = ':' then [] :: splitFields cs
    else
      match splitFields cs with
      | [] => [[c]]
      | f :: fs => (c :: f) :: fs

/-- Field `i` of a colon-split line parsed as a Python int: `none` models
either an `IndexError` (missing field) or a `ValueError` (non-integer). -/
def hdrField (l : List Char) (i : Nat) : Option Int :=
  ((splitFields l)[i]?).bind pyInt

/-- The three integer fields of a `FRAME_START` (or any three-field) line, in
positional order `parts[1], parts[2], parts[3]`. -/
def headerTriple (l : List Char) : Option (Int × Int × Int) :=
  match hdrField l 1, hdrField l 2, hdrField l 3 with
  | some a, some b, some c => some (a, b, c)
  | _, _, _ => none

/-- The five integer fields of an `OBJECT_DETECTED` line, in positional order
`parts[1] .. parts[5]`.  Any further fields are never inspected, exactly as in
the Python handlers, which index only `parts[1]` through `parts[5]`. -/
def detectFields (l : List Char) : Option (Int × Int × Int × Int × Int) :=
  match hdrField l 1, hdrField l 2, hdrField l 3, hdrField l 4, hdrField l 5 with
  | some x, some y, some w, some h, some m => some (x, y, w, h, m)
  | _, _, _, _, _ => none

/-- Model of Python's slice `buf[:n]` for an `int` bound `n`: a nonnegative
bound keeps the first `n` elements, a negative bound drops the last `|n|`. -/
def pyTake (l : List Nat) (n : Int) : List Nat :=
  if 0 ≤ n then l.take n.toNat else l.take (l.length - n.natAbs)

/-- The line `CAMERA_READY`. -/
def camReadyLine : List Char := "CAMERA_READY".data

/-- The line `FRAME_END`. -/
def frameEndLine : List Char := "FRAME_END".data

/-- The line `NO_OBJECT`. -/
def noObjectLine : List Char := "NO_OBJECT".data

/-- The tag starting a frame header line. -/
def frameStartTag : List Char := "FRAME_START:".data

/-- The tag starting a chunk header line. -/
def chunkTag : List Char := "CHUNK:".data

/-- The tag starting a detection report line. -/
def objDetTag : List Char := "OBJECT_DETECTED:".data

/-- The tag starting a sender-side error line. -/
def errorTag : List Char := "ERROR:".data

/-- Observable events of the two receiver machines.  Each constructor records
one externally visible action of the Python code: a console report, or the
handoff of a completed buffer to `cv2.imdecode` (`decodeHandoff`, which also
records the header dimensions held in state at that moment).  The
`abortedFrame` constructor is modelled from the spec: section 4.2 requires an
aborted-frame event when a second `FRAME_START` arrives mid-frame; it is part
of the event vocabulary so that its absence from the code's traces can be
stated, and no transition below ever emits it. -/
inductive Ev where
  | cameraReady
  | frameStarted (size w h : Int)
  | headerParseError
  | chunkParseError
  | chunkReceived (n : Int)
  | sizeMismatch (expected got : Int)
  | incompleteFrame (got expected : Int)
  | decodeHandoff (payload : List Nat) (w h : Int)
  | objectDetected (x y w h conf : Int)
  | detectParseError
  | noObject
  | espError (msg : List Char)
  | abortedFrame
deriving DecidableEq

/-- True exactly on a buffer-to-decoder handoff event. -/
def evIsHandoff : Ev → Bool
  | .decodeHandoff _ _ _ => true
  | _ => false

/-- Input tokens of the simple wired display receiver
(`test_wired_display_simple.py`).  `line l` is one newline-terminated text
line handed to `process_serial_line`.  `chunk n data` is a `CHUNK:<n>` line
whose size field parsed, together with the bytes `data` that the subsequent
`serial_connection.read(n)` returned (the end-of-chunk terminator consumed by
the following `readline()` is absorbed into the token). -/
inductive Token where
  | line (l : List Char)
  | chunk (n : Int) (data : List Nat)
deriving DecidableEq

/-- Mutable state of `ESP32CamWiredDisplay` relevant to reassembly:
`frame_buffer`, `receiving_frame`, `expected_frame_size`, `frame_width`,
`frame_height` (initialised in `__init__` lines 40-44).  Display-side
bookkeeping (`current_frame`, `frame_count`, timing) depends on the external
JPEG decoder and clock and is not part of the state. -/
structure SimpleState where
  frameBuffer : List Nat
  receivingFrame : Bool
  expectedFrameSize : Int
  frameWidth : Int
  frameHeight : Int
deriving DecidableEq

/-- The state a fresh `ESP32CamWiredDisplay` starts in. -/
def initSimple : SimpleState :=
  { frameBuffer := []
    receivingFrame := false
    expectedFrameSize := 0
    frameWidth := 0
    frameHeight := 0 }

/-- The `FRAME_START:` branch of `process_serial_line` (lines 135-150).  The
three fields are assigned one at a time — `expected_frame_size = int(parts[1])`,
`frame_width = int(parts[2])`, `frame_height = int(parts[3])` — so a parse
failure on a later field leaves the earlier assignments committed; only after
all three succeed are the buffer reset and `receiving_frame` set. -/
def frameStartSimple (st : SimpleState) (l : List Char) : SimpleState × List Ev :=
  match hdrField l 1 with
  | none => (st, [.headerParseError])
  | some size =>
    let st1 := { st with expectedFrameSize := size }
    match hdrField l 2 with
    | none => (st1, [.headerParseError])
    | some w =>
      let st2 := { st1 with frameWidth := w }
      match hdrField l 3 with
      | none => (st2, [.headerParseError])
      | some h =>
        ({ st2 with frameHeight := h, frameBuffer := [], receivingFrame := true },
         [.frameStarted size w h])

/-- The `CHUNK:` branch of `process_serial_line` (lines 152-167) when it
arrives as a bare text token, covering the case where `serial.read` has no
payload bytes to return: a parsed header logs the chunk and appends nothing,
an unparseable header only logs the caught `ValueError`.  A chunk whose
payload bytes arrived is the `Token.chunk` case of `stepSimple`. -/
def chunkLineSimple (st : SimpleState) (l : List Char) : SimpleState × List Ev :=
  match hdrField l 1 with
  | none => (st, [.chunkParseError])
  | some n => (st, [.chunkReceived n])

/-- `process_complete_frame` (lines 178-202): a buffer whose length differs
from the declared size is reported and dropped; otherwise the buffer is handed
to the JPEG decoder together with the stored dimensions.  The buffer is not
cleared in either case (the next `FRAME_START` resets it). -/
def processCompleteFrame (st : SimpleState) : SimpleState × List Ev :=
  if (st.frameBuffer.length : Int) ≠ st.expectedFrameSize then
    (st, [.sizeMismatch st.expectedFrameSize (st.frameBuffer.length : Int)])
  else
    (st, [.decodeHandoff st.frameBuffer st.frameWidth st.frameHeight])

/-- The `FRAME_END` branch of `process_serial_line` (lines 169-172):
`process_complete_frame` runs and `receiving_frame` is cleared only when a
frame was being received. -/
def frameEndSimple (st : SimpleState) : SimpleState × List Ev :=
  if st.receivingFrame then
    let r := processCompleteFrame st
    ({ r.1 with receivingFrame := false }, r.2)
  else (st, [])

/-- Dispatch of `process_serial_line` on one text line, in the source's
branch order: `CAMERA_READY`, `FRAME_START:`, `CHUNK:`, `FRAME_END`,
`ERROR:`, otherwise ignore. -/
def stepLineSimple (st : SimpleState) (l : List Char) : SimpleState × List Ev :=
  if l = camReadyLine then (st, [.cameraReady])
  else if frameStartTag.isPrefixOf l then frameStartSimple st l
  else if chunkTag.isPrefixOf l then chunkLineSimple st l
  else if l = frameEndLine then frameEndSimple st
  else if errorTag.isPrefixOf l then (st, [.espError (l.drop 6)])
  else (st, [])

/-- One step of the `ESP32CamWiredDisplay` receiver.  A `chunk` token appends
its payload to the frame buffer unconditionally — the source checks neither
`receiving_frame` nor the remaining capacity before
`self.frame_buffer.extend(chunk_data)`. -/
def stepSimple : SimpleState → Token → SimpleState × List Ev
  | st, .chunk n data => ({ st with frameBuffer := st.frameBuffer ++ data }, [.chunkReceived n])
  | st, .line l => stepLineSimple st l

/-- Run the simple receiver over a token list, collecting emitted events. -/
def runSimple : SimpleState → List Token → SimpleState × List Ev
  | st, [] => (st, [])
  | st, t :: ts =>
    let r := stepSimple st t
    let rs := runSimple r.1 ts
    (rs.1, r.2 ++ rs.2)

/-- Zone of a horizontal coordinate relative to a reference width, naming the
three branches shared by every zone computation in the repository. -/
inductive Zone where
  | left
  | center
  | right
deriving DecidableEq

/-- The zone branch structure used by `MotionDetectionController.process_frame`
(lines 102-111) and, with the width fixed to 320, by every `OBJECT_DETECTED`
handler: `zone_width = w / 3`; strictly left of `zone_width` is Left, strictly
right of `zone_width * 2` is Right, everything else Center.  Coordinates and
widths are rationals, the exact-arithmetic reading of Python's `/`. -/
def classify (x w : ℚ) : Zone :=
  if x < w / 3 then .left
  else if x > w / 3 * 2 then .right
  else .center

/-- Fixed command table: the literal strings assigned in each branch. -/
def commandOfZone : Zone → String
  | .left => "Move Left"
  | .center => "Stay"
  | .right => "Move Right"

/-- The command computation of `process_frame` (computer_controller.py lines
102-111), which assigns the command string directly in each zone branch. -/
def motionCommand (centerX frameWidth : ℚ) : String :=
  if centerX < frameWidth / 3 then "Move Left"
  else if centerX > frameWidth / 3 * 2 then "Move Right"
  else "Stay"

/-- Command and zone-label pair computed by the `OBJECT_DETECTED` handler of
`test_esp32_wired_display.py` (lines 126-138) with its hard-coded
`frame_width = 320`. -/
def detectCommandZone (x : ℚ) : String × String :=
  if x < (320 : ℚ) / 3 then ("Move Left", "LEFT")
  else if x > (320 : ℚ) / 3 * 2 then ("Move Right", "RIGHT")
  else ("Stay", "CENTER")

/-- Command computed by the `OBJECT_DETECTED` handler of
`test_esp32_direct.py` (lines 119-128) with its hard-coded
`frame_width = 320`. -/
def directDetectCommand (x : ℚ) : String :=
  if x < (320 : ℚ) / 3 then "Move Left"
  else if x > (320 : ℚ) / 3 * 2 then "Move Right"
  else "Stay"

/-- Command and zone-label pair computed by the `OBJECT_DETECTED` handler of
`test_esp32_simple_display.py` (lines 131-143) with its hard-coded
`frame_width = 320`. -/
def simpleDisplayCommandZone (x : ℚ) : String × String :=
  if x < (320 : ℚ) / 3 then ("Move Left", "LEFT")
  else if x > (320 : ℚ) / 3 * 2 then ("Move Right", "RIGHT")
  else ("Stay", "CENTER")

/-- The detection record stored in `self.current_detection` by
`ESP32CamWiredTester.process_data` (the wall-clock `time` entry of the Python
dict is external and not modelled). -/
structure Detection where
  x : Int
  y : Int
  w : Int
  h : Int
  confidence : Int
  command : String
  zone : String
deriving DecidableEq

/-- The detection record built from five parsed fields, with command and zone
computed from `x` alone via the hard-coded width 320. -/
def mkDetection (x y w h conf : Int) : Detection :=
  { x := x, y := y, w := w, h := h, confidence := conf
    command := (detectCommandZone (x : ℚ)).1
    zone := (detectCommandZone (x : ℚ)).2 }

/-- Input tokens of the `ESP32CamWiredTester` receiver: its reader thread
queues either a decoded text line (`('TEXT', line)`) or a raw binary segment
(`('BINARY', data)`), which `process_data` consumes. -/
inductive WToken where
  | text (l : List Char)
  | binary (data : List Nat)
deriving DecidableEq

/-- Mutable state of `ESP32CamWiredTester` relevant to reassembly and
detection, initialised in `__init__` lines 37-50: `current_detection = None`,
`detection_count = 0`, `receiving_frame = False`, `frame_buffer` empty,
`expected_frame_size = 0`, `frame_width = 320`, `frame_height = 240`.
Display bookkeeping (`current_frame`, `frame_count`) depends on the external
decoder and is not part of the state. -/
structure WiredState where
  currentDetection : Option Detection
  detectionCount : Nat
  receivingFrame : Bool
  frameBuffer : List Nat
  expectedFrameSize : Int
  frameWidth : Int
  frameHeight : Int
deriving DecidableEq

/-- The state a fresh `ESP32CamWiredTester` starts in. -/
def initWired : WiredState :=
  { currentDetection := none
    detectionCount := 0
    receivingFrame := false
    frameBuffer := []
    expectedFrameSize := 0
    frameWidth := 320
    frameHeight := 240 }

/-- The `OBJECT_DETECTED:` branch of `ESP32CamWiredTester.process_data`
(lines 115-151): five fields parsed into locals, so a failure mutates nothing
and only logs; on success the count is bumped and the detection stored. -/
def objDetWired (st : WiredState) (l : List Char) : WiredState × List Ev :=
  match detectFields l with
  | none => (st, [.detectParseError])
  | some (x, y, w, h, m) =>
    ({ st with detectionCount := st.detectionCount + 1
               currentDetection := some (mkDetection x y w h m) },
     [.objectDetected x y w h m])

/-- The `FRAME_START:` branch of `ESP32CamWiredTester.process_data` (lines
153-166).  Note the field order of this file: `frame_width = int(parts[1])`,
`frame_height = int(parts[2])`, `expected_frame_size = int(parts[3])` —
width, height, size.  Assignments are sequential, so a later parse failure
leaves earlier assignments committed. -/
def frameStartWired (st : WiredState) (l : List Char) : WiredState × List Ev :=
  match hdrField l 1 with
  | none => (st, [.headerParseError])
  | some w =>
    let st1 := { st with frameWidth := w }
    match hdrField l 2 with
    | none => (st1, [.headerParseError])
    | some h =>
      let st2 := { st1 with frameHeight := h }
      match hdrField l 3 with
      | none => (st2, [.headerParseError])
      | some size =>
        ({ st2 with expectedFrameSize := size, receivingFrame := true, frameBuffer := [] },
         [.frameStarted size w h])

/-- `process_received_frame` (lines 183-203): a buffer shorter than the
declared size is reported and dropped; otherwise `frame_buffer[:expected]` —
the buffer truncated to the declared size — is handed to the JPEG decoder.
The buffer itself is not cleared. -/
def processReceivedFrame (st : WiredState) : WiredState × List Ev :=
  if (st.frameBuffer.length : Int) < st.expectedFrameSize then
    (st, [.incompleteFrame (st.frameBuffer.length : Int) st.expectedFrameSize])
  else
    (st, [.decodeHandoff (pyTake st.frameBuffer st.expectedFrameSize) st.frameWidth st.frameHeight])

/-- The `FRAME_END` branch of `process_data` (lines 168-171). -/
def frameEndWired (st : WiredState) : WiredState × List Ev :=
  if st.receivingFrame then
    let r := processReceivedFrame st
    ({ r.1 with receivingFrame := false }, r.2)
  else (st, [])

/-- Dispatch of `process_data` on a `TEXT` item, in the source's branch
order: `CAMERA_READY`, `OBJECT_DETECTED:`, `FRAME_START:`, `FRAME_END`,
`NO_OBJECT`, `ERROR:`, otherwise ignore silently. -/
def stepTextWired (st : WiredState) (l : List Char) : WiredState × List Ev :=
  if l = camReadyLine then (st, [.cameraReady])
  else if objDetTag.isPrefixOf l then objDetWired st l
  else if frameStartTag.isPrefixOf l then frameStartWired st l
  else if l = frameEndLine then frameEndWired st
  else if l = noObjectLine then ({ st with currentDetection := none }, [.noObject])
  else if errorTag.isPrefixOf l then (st, [.espError (l.drop 6)])
  else (st, [])

/-- One step of the `ESP32CamWiredTester` receiver.  A `BINARY` item extends
the frame buffer only while a frame is being received (line 180). -/
def stepWired : WiredState → WToken → WiredState × List Ev
  | st, .binary data =>
    if st.receivingFrame then ({ st with frameBuffer := st.frameBuffer ++ data }, [])
    else (st, [])
  | st, .text l => stepTextWired st l

/-- Run the wired tester receiver over a token list, collecting events. -/
def runWired : WiredState → List WToken → WiredState × List Ev
  | st, [] => (st, [])
  | st, t :: ts =>
    let r := stepWired st t
    let rs := runWired r.1 ts
    (rs.1, r.2 ++ rs.2)

/-- Debounce state of the command-forwarding loops in
`computer_controller.py` (`run_with_esp32_stream` lines 140-158 and
`run_with_local_camera` lines 183-200): `last_command = ""` and
`command_delay = 0` before the first cycle. -/
structure DebounceState where
  lastCommand : String
  commandDelay : Int
deriving DecidableEq

/-- The debounce state at loop entry. -/
def initDebounce : DebounceState := { lastCommand := "", commandDelay := 0 }

/-- One debounce cycle: forward the newly computed command when it differs
from the last forwarded one or the delay counter has run out, resetting the
counter to 10; otherwise suppress it and decrement the counter.  The returned
Bool records whether `send_command_to_arduino` was invoked. -/
def debounceStep (st : DebounceState) (cmd : String) : DebounceState × Bool :=
  if cmd ≠ st.lastCommand ∨ st.commandDelay ≤ 0 then
    ({ lastCommand := cmd, commandDelay := 10 }, true)
  else
    ({ st with commandDelay := st.commandDelay - 1 }, false)

/-- Run the debounce loop over a list of computed commands, collecting the
per-cycle forwarded/suppressed flags in order. -/
def debounceRun : DebounceState → List String → DebounceState × List Bool
  | st, [] => (st, [])
  | st, c :: cs =>
    let r := debounceStep st c
    let rs := debounceRun r.1 cs
    (rs.1, r.2 :: rs.2)

/-- Number of forwards the debounce loop performs on a command sequence,
starting from the loop-entry state. -/
def forwardCount (cmds : List String) : Nat :=
  ((debounceRun initDebounce cmds).2.count true)

/-- The token sequence of one well-formed frame transmission for the simple
receiver: a header line, the payload split into chunks, then `FRAME_END`. -/
def frameTokens (l : List Char) (pieces : List (List Nat)) : List Token :=
  Token.line l :: ((pieces.map fun p => Token.chunk (p.length : Int) p) ++ [Token.line frameEndLine])

/-! Helper lemmas about routing, parsing and runs. -/

lemma consNeOfHead {a b : Char} {t u : List Char} (hab : a ≠ b) : a :: t ≠ b :: u := by
  intro he
  injection he with h1 _
  exact hab h1

lemma headOfPref {a : Char} {as l : List Char} (h : List.isPrefixOf (a :: as) l = true) :
    ∃ t, l = a :: t := by
  cases l with
  | nil => simp [List.isPrefixOf] at h
  | cons b bs =>
    simp only [List.isPrefixOf, Bool.and_eq_true, beq_iff_eq] at h
    exact ⟨bs, by rw [h.1]⟩

lemma fsNeCamReady {l : List Char} (h : frameStartTag.isPrefixOf l = true) :
    l ≠ camReadyLine := by
  obtain ⟨t, rfl⟩ := headOfPref (show List.isPrefixOf ('F' :: "RAME_START:".data) l = true from h)
  exact consNeOfHead (by decide)

lemma odNeCamReady {l : List Char} (h : objDetTag.isPrefixOf l = true) :
    l ≠ camReadyLine := by
  obtain ⟨t, rfl⟩ := headOfPref (show List.isPrefixOf ('O' :: "BJECT_DETECTED:".data) l = true from h)
  exact consNeOfHead (by decide)

lemma fsNotOd {l : List Char} (h : frameStartTag.isPrefixOf l = true) :
    objDetTag.isPrefixOf l = false := by
  obtain ⟨t, rfl⟩ := headOfPref (show List.isPrefixOf ('F' :: "RAME_START:".data) l = true from h)
  cases ho : List.isPrefixOf objDetTag ('F' :: t) with
  | false => rfl
  | true =>
    obtain ⟨u, hu⟩ := headOfPref (show List.isPrefixOf ('O' :: "BJECT_DETECTED:".data) ('F' :: t) = true from ho)
    exact absurd hu (consNeOfHead (by decide))

lemma stepSimpleLineEq (st : SimpleState) (l : List Char) :
    stepSimple st (Token.line l) = stepLineSimple st l := rfl

lemma routeSimpleFS (st : SimpleState) {l : List Char}
    (h : frameStartTag.isPrefixOf l = true) :
    stepLineSimple st l = frameStartSimple st l := by
  unfold stepLineSimple
  rw [if_neg (fsNeCamReady h), if_pos h]

lemma routeSimpleEnd (st : SimpleState) :
    stepLineSimple st frameEndLine = frameEndSimple st := rfl

lemma routeWiredOD (st : WiredState) {l : List Char}
    (h : objDetTag.isPrefixOf l = true) :
    stepTextWired st l = objDetWired st l := by
  unfold stepTextWired
  rw [if_neg (odNeCamReady h), if_pos h]

lemma routeWiredFS (st : WiredState) {l : List Char}
    (h : frameStartTag.isPrefixOf l = true) :
    stepTextWired st l = frameStartWired st l := by
  unfold stepTextWired
  rw [if_neg (fsNeCamReady h)]
  rw [show (objDetTag.isPrefixOf l) = false from fsNotOd h]
  rw [if_pos h]
  rfl

lemma routeWiredEnd (st : WiredState) :
    stepTextWired st frameEndLine = frameEndWired st := rfl

lemma headerTripleParts {l : List Char} {s w h : Int}
    (hh : headerTriple l = some (s, w, h)) :
    hdrField l 1 = some s ∧ hdrField l 2 = some w ∧ hdrField l 3 = some h := by
  unfold headerTriple at hh
  cases h1 : hdrField l 1 with
  | none => rw [h1] at hh; simp at hh
  | some a =>
    cases h2 : hdrField l 2 with
    | none => rw [h1, h2] at hh; simp at hh
    | some b =>
      cases h3 : hdrField l 3 with
      | none => rw [h1, h2, h3] at hh; simp at hh
      | some c =>
        rw [h1, h2, h3] at hh
        simp only [Option.some.injEq, Prod.mk.injEq] at hh
        obtain ⟨rfl, rfl, rfl⟩ := hh
        exact ⟨rfl, rfl, rfl⟩

lemma frameStartSimple_ok (st : SimpleState) {l : List Char} {s w h : Int}
    (hh : headerTriple l = some (s, w, h)) :
    frameStartSimple st l
      = (⟨[], true, s, w, h⟩, [Ev.frameStarted s w h]) := by
  obtain ⟨h1, h2, h3⟩ := headerTripleParts hh
  unfold frameStartSimple
  rw [h1, h2, h3]

lemma frameStartWired_ok (st : WiredState) {l : List Char} {a b c : Int}
    (hh : headerTriple l = some (a, b, c)) :
    frameStartWired st l
      = ({ st with frameWidth := a, frameHeight := b, expectedFrameSize := c,
                   receivingFrame := true, frameBuffer := [] },
         [Ev.frameStarted c a b]) := by
  obtain ⟨h1, h2, h3⟩ := headerTripleParts hh
  unfold frameStartWired
  rw [h1, h2, h3]

lemma detectFieldsParts {l : List Char} {x y w h m : Int}
    (hp : detectFields l = some (x, y, w, h, m)) :
    hdrField l 1 = some x ∧ hdrField l 2 = some y ∧ hdrField l 3 = some w ∧
    hdrField l 4 = some h ∧ hdrField l 5 = some m := by
  unfold detectFields at hp
  cases h1 : hdrField l 1 with
  | none => rw [h1] at hp; simp at hp
  | some a =>
    cases h2 : hdrField l 2 with
    | none => rw [h1, h2] at hp; simp at hp
    | some b =>
      cases h3 : hdrField l 3 with
      | none => rw [h1, h2, h3] at hp; simp at hp
      | some c =>
        cases h4 : hdrField l 4 with
        | none => rw [h1, h2, h3, h4] at hp; simp at hp
        | some d =>
          cases h5 : hdrField l 5 with
          | none => rw [h1, h2, h3, h4, h5] at hp; simp at hp
          | some e =>
            rw [h1, h2, h3, h4, h5] at hp
            simp only [Option.some.injEq, Prod.mk.injEq] at hp
            obtain ⟨rfl, rfl, rfl, rfl, rfl⟩ := hp
            exact ⟨rfl, rfl, rfl, rfl, rfl⟩

lemma objDetWired_ok (st : WiredState) {l : List Char} {x y w h m : Int}
    (hp : detectFields l = some (x, y, w, h, m)) :
    objDetWired st l
      = ({ st with detectionCount := st.detectionCount + 1
                   currentDetection := some (mkDetection x y w h m) },
         [Ev.objectDetected x y w h m]) := by
  unfold objDetWired
  rw [hp]

lemma runSimple_cons (st : SimpleState) (t : Token) (ts : List Token) :
    runSimple st (t :: ts)
      = ((runSimple (stepSimple st t).1 ts).1,
         (stepSimple st t).2 ++ (runSimple (stepSimple st t).1 ts).2) := rfl

lemma runSimple_append (st : SimpleState) (ts1 ts2 : List Token) :
    runSimple st (ts1 ++ ts2)
      = ((runSimple (runSimple st ts1).1 ts2).1,
         (runSimple st ts1).2 ++ (runSimple (runSimple st ts1).1 ts2).2) := by
  induction ts1 generalizing st with
  | nil => simp [runSimple]
  | cons t ts ih => simp [runSimple, ih]

lemma runSimple_chunks (pieces : List (List Nat)) (st : SimpleState) :
    runSimple st (pieces.map fun p => Token.chunk (p.length : Int) p)
      = ({ st with frameBuffer := st.frameBuffer ++ pieces.flatten },
         pieces.map fun p => Ev.chunkReceived (p.length : Int)) := by
  induction pieces generalizing st with
  | nil => simp [runSimple]
  | cons p ps ih => simp [runSimple, stepSimple, ih]

lemma frameEndSimple_complete (st : SimpleState) (hr : st.receivingFrame = true)
    (hs : (st.frameBuffer.length : Int) = st.expectedFrameSize) :
    frameEndSimple st
      = ({ st with receivingFrame := false },
         [Ev.decodeHandoff st.frameBuffer st.frameWidth st.frameHeight]) := by
  unfold frameEndSimple processCompleteFrame
  rw [hr, if_pos rfl, if_neg (by rw [hs]; exact fun hc => hc rfl)]

lemma frameEndSimple_mismatch (st : SimpleState) (hr : st.receivingFrame = true)
    (hs : (st.frameBuffer.length : Int) ≠ st.expectedFrameSize) :
    frameEndSimple st
      = ({ st with receivingFrame := false },
         [Ev.sizeMismatch st.expectedFrameSize (st.frameBuffer.length : Int)]) := by
  unfold frameEndSimple processCompleteFrame
  rw [hr, if_pos rfl, if_pos hs]

lemma simple_roundTrip (st : SimpleState) (l : List Char) (pieces : List (List Nat))
    (s w h : Int) (hl : frameStartTag.isPrefixOf l = true)
    (hh : headerTriple l = some (s, w, h))
    (hs : s = (pieces.flatten.length : Int)) :
    runSimple st (frameTokens l pieces)
      = (⟨pieces.flatten, false, s, w, h⟩,
         Ev.frameStarted s w h ::
           ((pieces.map fun p => Ev.chunkReceived (p.length : Int)) ++
            [Ev.decodeHandoff pieces.flatten w h])) := by
  have hstep : stepSimple st (Token.line l) = (⟨[], true, s, w, h⟩, [Ev.frameStarted s w h]) := by
    rw [stepSimpleLineEq, routeSimpleFS st hl, frameStartSimple_ok st hh]
  have hmid : runSimple (⟨[], true, s, w, h⟩ : SimpleState)
      (pieces.map fun p => Token.chunk (p.length : Int) p)
      = (⟨pieces.flatten, true, s, w, h⟩,
         pieces.map fun p => Ev.chunkReceived (p.length : Int)) := by
    rw [runSimple_chunks]
    rfl
  have hend : stepSimple (⟨pieces.flatten, true, s, w, h⟩ : SimpleState) (Token.line frameEndLine)
      = (⟨pieces.flatten, false, s, w, h⟩, [Ev.decodeHandoff pieces.flatten w h]) := by
    rw [stepSimpleLineEq, routeSimpleEnd,
      frameEndSimple_complete _ rfl (by exact hs.symm)]
  unfold frameTokens
  rw [runSimple_cons, hstep]
  rw [runSimple_append, hmid]
  rw [runSimple_cons, hend]
  rfl

lemma roundTrip_filter (st : SimpleState) (l : List Char) (pieces : List (List Nat))
    (s w h : Int) (hl : frameStartTag.isPrefixOf l = true)
    (hh : headerTriple l = some (s, w, h))
    (hs : s = (pieces.flatten.length : Int)) :
    (runSimple st (frameTokens l pieces)).2.filter evIsHandoff
      = [Ev.decodeHandoff pieces.flatten w h] := by
  have hnone : (pieces.map fun p => Ev.chunkReceived (p.length : Int)).filter evIsHandoff
      = [] := by
    induction pieces with
    | nil => rfl
    | cons p ps ih => simp [evIsHandoff, ih]
  rw [simple_roundTrip st l pieces s w h hl hh hs]
  simp [evIsHandoff, hnone]

/-- C1: for every valid (size, width, height, payload) with
len(payload) = size, feeding the FRAME_START header line, the payload split
at arbitrary chunk boundaries (each piece delivered as a CHUNK token carrying
its announced length and bytes), then FRAME_END, makes the simple receiver
emit exactly one completed frame, whose accumulated buffer is exactly the
original payload, handed to the decoder together with the header's width and
height.  The run is from an arbitrary starting state, covering recovery after
earlier faults. -/
theorem c1_frame_reassembly_roundtrip (st : SimpleState) (l : List Char)
    (pieces : List (List Nat)) (s w h : Int)
    (hl : frameStartTag.isPrefixOf l = true)
    (hh : headerTriple l = some (s, w, h))
    (hs : s = (pieces.flatten.length : Int)) :
    runSimple st (frameTokens l pieces)
      = (⟨pieces.flatten, false, s, w, h⟩,
         Ev.frameStarted s w h ::
           ((pieces.map fun p => Ev.chunkReceived (p.length : Int)) ++
            [Ev.decodeHandoff pieces.flatten w h]))
    ∧ (runSimple st (frameTokens l pieces)).2.filter evIsHandoff
        = [Ev.decodeHandoff pieces.flatten w h] :=
  ⟨simple_roundTrip st l pieces s w h hl hh hs,
   roundTrip_filter st l pieces s w h hl hh hs⟩

/-- Witness for C1 at a concrete frame: size 3, dimensions 2x2, payload
[10, 20, 30] split into chunks [10, 20] and [30]. -/
theorem c1_witness :
    frameStartTag.isPrefixOf ("FRAME_START:3:2:2".data) = true
    ∧ headerTriple ("FRAME_START:3:2:2".data) = some (3, 2, 2)
    ∧ (3 : Int) = ((([[10, 20], [30]] : List (List Nat)).flatten.length : Int))
    ∧ (runSimple initSimple
        (frameTokens ("FRAME_START:3:2:2".data) [[10, 20], [30]])).2.filter evIsHandoff
        = [Ev.decodeHandoff [10, 20, 30] 2 2] :=
  ⟨by decide, by rfl, by rfl,
   (c1_frame_reassembly_roundtrip initSimple ("FRAME_START:3:2:2".data)
      [[10, 20], [30]] 3 2 2 (by decide) (by rfl) (by rfl)).2⟩

/-- C2 counterexample: in the wired tester, after FRAME_START announcing size
2 and three accumulated payload bytes (length 3, differing from the declared
size), FRAME_END hands the truncated buffer [1, 2] to the decoder — an
oversized payload is passed on rather than dropped, contradicting the claim
that a buffer differing from the declared size is never decoded. -/
theorem c2_counterexample :
    (((runWired initWired
        [WToken.text ("FRAME_START:10:10:2".data),
         WToken.binary [1, 2, 3]]).1.frameBuffer.length : Int)
      ≠ (runWired initWired
        [WToken.text ("FRAME_START:10:10:2".data),
         WToken.binary [1, 2, 3]]).1.expectedFrameSize)
    ∧ (runWired initWired
        [WToken.text ("FRAME_START:10:10:2".data),
         WToken.binary [1, 2, 3],
         WToken.text frameEndLine]).2.filter evIsHandoff
      = [Ev.decodeHandoff [1, 2] 10 10] := by decide

/-- C2 amended: in the simple display receiver, FRAME_END with a buffer whose
length differs from the declared size (smaller or larger) emits only a
size-mismatch report, no decoder handoff, clears the receiving flag, and a
subsequent well-formed frame from any state completes with exactly one
handoff.  In the wired tester, FRAME_END with a buffer shorter than the
declared size emits nothing; with a buffer of at least the declared size the
buffer truncated to the declared size is handed to the decoder. -/
theorem c2_size_mismatch_behavior :
    (∀ st : SimpleState, st.receivingFrame = true →
      (st.frameBuffer.length : Int) ≠ st.expectedFrameSize →
      stepSimple st (Token.line frameEndLine)
        = ({ st with receivingFrame := false },
           [Ev.sizeMismatch st.expectedFrameSize (st.frameBuffer.length : Int)]))
    ∧ (∀ (st : SimpleState) (l : List Char) (pieces : List (List Nat)) (s w h : Int),
        frameStartTag.isPrefixOf l = true →
        headerTriple l = some (s, w, h) →
        s = (pieces.flatten.length : Int) →
        (runSimple st (frameTokens l pieces)).2.filter evIsHandoff
          = [Ev.decodeHandoff pieces.flatten w h])
    ∧ (∀ st : WiredState, st.receivingFrame = true →
        (st.frameBuffer.length : Int) < st.expectedFrameSize →
        stepWired st (WToken.text frameEndLine)
          = ({ st with receivingFrame := false },
             [Ev.incompleteFrame (st.frameBuffer.length : Int) st.expectedFrameSize]))
    ∧ (∀ st : WiredState, st.receivingFrame = true →
        ¬ (st.frameBuffer.length : Int) < st.expectedFrameSize →
        stepWired st (WToken.text frameEndLine)
          = ({ st with receivingFrame := false },
             [Ev.decodeHandoff (pyTake st.frameBuffer st.expectedFrameSize)
                st.frameWidth st.frameHeight])) := by
  refine ⟨?_, ?_, ?_, ?_⟩
  · intro st hr hs
    rw [show stepSimple st (Token.line frameEndLine) = stepLineSimple st frameEndLine from rfl,
      routeSimpleEnd, frameEndSimple_mismatch st hr hs]
  · intro st l pieces s w h hl hh hs
    exact roundTrip_filter st l pieces s w h hl hh hs
  · intro st hr hlt
    rw [show stepWired st (WToken.text frameEndLine) = stepTextWired st frameEndLine from rfl,
      routeWiredEnd]
    unfold frameEndWired processReceivedFrame
    rw [hr, if_pos rfl, if_pos hlt]
  · intro st hr hge
    rw [show stepWired st (WToken.text frameEndLine) = stepTextWired st frameEndLine from rfl,
      routeWiredEnd]
    unfold frameEndWired processReceivedFrame
    rw [hr, if_pos rfl, if_neg hge]

/-- Witness for C2 at concrete states: the simple receiver with a 1-byte
buffer against declared size 99 drops the frame; the wired tester with
buffer [1, 2, 3] against declared size 2 hands over the truncated [1, 2]. -/
theorem c2_witness :
    ((⟨[5], true, 99, 1, 1⟩ : SimpleState).receivingFrame = true
      ∧ (((⟨[5], true, 99, 1, 1⟩ : SimpleState).frameBuffer.length : Int) ≠ 99)
      ∧ stepSimple (⟨[5], true, 99, 1, 1⟩ : SimpleState) (Token.line frameEndLine)
          = (⟨[5], false, 99, 1, 1⟩, [Ev.sizeMismatch 99 1]))
    ∧ ((⟨none, 0, true, [1, 2, 3], 2, 10, 10⟩ : WiredState).receivingFrame = true
      ∧ ¬ (((⟨none, 0, true, [1, 2, 3], 2, 10, 10⟩ : WiredState).frameBuffer.length : Int) < 2)
      ∧ stepWired (⟨none, 0, true, [1, 2, 3], 2, 10, 10⟩ : WiredState) (WToken.text frameEndLine)
          = (⟨none, 0, false, [1, 2, 3], 2, 10, 10⟩,
             [Ev.decodeHandoff [1, 2] 10 10])) :=
  ⟨⟨rfl, by decide,
    c2_size_mismatch_behavior.1 (⟨[5], true, 99, 1, 1⟩ : SimpleState) rfl (by decide)⟩,
   ⟨rfl, by decide,
    c2_size_mismatch_behavior.2.2.2 (⟨none, 0, true, [1, 2, 3], 2, 10, 10⟩ : WiredState)
      rfl (by decide)⟩⟩

/-- C3 counterexample: the wired tester interprets
`FRAME_START:100:320:240` with 100 as the width and 240 as the expected
size — the first field is not the payload size there, contradicting the
claim that every FRAME_START line is read as size, width, height. -/
theorem c3_counterexample :
    (stepWired initWired (WToken.text ("FRAME_START:100:320:240".data))).1.expectedFrameSize = 240
    ∧ (stepWired initWired (WToken.text ("FRAME_START:100:320:240".data))).1.frameWidth = 100
    ∧ (stepWired initWired (WToken.text ("FRAME_START:100:320:240".data))).1.frameHeight = 320
    ∧ (stepWired initWired (WToken.text ("FRAME_START:100:320:240".data))).1.expectedFrameSize
        ≠ 100 := by decide

/-- C3 amended: the simple display receiver reads the three FRAME_START
fields as size, width, height in that order, but the wired tester reads them
as width, height, size. -/
theorem c3_field_order :
    (∀ (st : SimpleState) (l : List Char) (s w h : Int),
      frameStartTag.isPrefixOf l = true → headerTriple l = some (s, w, h) →
      (stepSimple st (Token.line l)).1.expectedFrameSize = s
      ∧ (stepSimple st (Token.line l)).1.frameWidth = w
      ∧ (stepSimple st (Token.line l)).1.frameHeight = h)
    ∧ (∀ (st : WiredState) (l : List Char) (a b c : Int),
      frameStartTag.isPrefixOf l = true → headerTriple l = some (a, b, c) →
      (stepWired st (WToken.text l)).1.frameWidth = a
      ∧ (stepWired st (WToken.text l)).1.frameHeight = b
      ∧ (stepWired st (WToken.text l)).1.expectedFrameSize = c) := by
  constructor
  · intro st l s w h hl hh
    rw [show stepSimple st (Token.line l) = stepLineSimple st l from rfl,
      routeSimpleFS st hl, frameStartSimple_ok st hh]
    exact ⟨rfl, rfl, rfl⟩
  · intro st l a b c hl hh
    rw [show stepWired st (WToken.text l) = stepTextWired st l from rfl,
      routeWiredFS st hl, frameStartWired_ok st hh]
    exact ⟨rfl, rfl, rfl⟩

/-- Witness for C3 on the line `FRAME_START:1:2:3` fed to both receivers
from their initial states. -/
theorem c3_witness :
    (frameStartTag.isPrefixOf ("FRAME_START:1:2:3".data) = true
      ∧ headerTriple ("FRAME_START:1:2:3".data) = some (1, 2, 3))
    ∧ ((stepSimple initSimple (Token.line ("FRAME_START:1:2:3".data))).1.expectedFrameSize = 1
      ∧ (stepSimple initSimple (Token.line ("FRAME_START:1:2:3".data))).1.frameWidth = 2
      ∧ (stepSimple initSimple (Token.line ("FRAME_START:1:2:3".data))).1.frameHeight = 3)
    ∧ ((stepWired initWired (WToken.text ("FRAME_START:1:2:3".data))).1.frameWidth = 1
      ∧ (stepWired initWired (WToken.text ("FRAME_START:1:2:3".data))).1.frameHeight = 2
      ∧ (stepWired initWired (WToken.text ("FRAME_START:1:2:3".data))).1.expectedFrameSize = 3) :=
  ⟨⟨by decide, by rfl⟩,
   c3_field_order.1 initSimple ("FRAME_START:1:2:3".data) 1 2 3 (by decide) (by rfl),
   c3_field_order.2 initWired ("FRAME_START:1:2:3".data) 1 2 3 (by decide) (by rfl)⟩

/-- C4 counterexample: after `FRAME_START:2:1:1` and a 5-byte chunk the
simple receiver's buffer has length 5 against declared size 2 — the claimed
invariant buffer.length <= expected_size is violated, and no truncation or
overflow warning occurs. -/
theorem c4_counterexample :
    (runSimple initSimple
        [Token.line ("FRAME_START:2:1:1".data),
         Token.chunk 5 [9, 9, 9, 9, 9]]).1.expectedFrameSize
      < ((runSimple initSimple
        [Token.line ("FRAME_START:2:1:1".data),
         Token.chunk 5 [9, 9, 9, 9, 9]]).1.frameBuffer.length : Int) := by decide

/-- C4 amended: a chunk's bytes are appended in full, unconditionally — no
capacity check, no truncation, no overflow warning — so the buffer can exceed
the declared size; the overflow is only caught at FRAME_END, where the
mismatched buffer produces no decoder handoff. -/
theorem c4_chunk_append_untruncated :
    (∀ (st : SimpleState) (n : Int) (data : List Nat),
      stepSimple st (Token.chunk n data)
        = ({ st with frameBuffer := st.frameBuffer ++ data }, [Ev.chunkReceived n]))
    ∧ (∀ st : SimpleState, st.receivingFrame = true →
        (st.frameBuffer.length : Int) ≠ st.expectedFrameSize →
        (stepSimple st (Token.line frameEndLine)).2.filter evIsHandoff = []) := by
  constructor
  · intro st n data
    rfl
  · intro st hr hs
    rw [show stepSimple st (Token.line frameEndLine) = stepLineSimple st frameEndLine from rfl,
      routeSimpleEnd, frameEndSimple_mismatch st hr hs]
    rfl

/-- Witness for C4: a concrete chunk append and the dropped overfull frame. -/
theorem c4_witness :
    (stepSimple (⟨[1], true, 2, 1, 1⟩ : SimpleState) (Token.chunk 5 [9, 9, 9, 9, 9])
        = (⟨[1, 9, 9, 9, 9, 9], true, 2, 1, 1⟩, [Ev.chunkReceived 5]))
    ∧ ((⟨[9, 9, 9, 9, 9], true, 2, 1, 1⟩ : SimpleState).receivingFrame = true
      ∧ (((⟨[9, 9, 9, 9, 9], true, 2, 1, 1⟩ : SimpleState).frameBuffer.length : Int) ≠ 2)
      ∧ (stepSimple (⟨[9, 9, 9, 9, 9], true, 2, 1, 1⟩ : SimpleState)
          (Token.line frameEndLine)).2.filter evIsHandoff = []) :=
  ⟨c4_chunk_append_untruncated.1 (⟨[1], true, 2, 1, 1⟩ : SimpleState) 5 [9, 9, 9, 9, 9],
   ⟨rfl, by decide,
    c4_chunk_append_untruncated.2 (⟨[9, 9, 9, 9, 9], true, 2, 1, 1⟩ : SimpleState)
      rfl (by decide)⟩⟩

/-- C5 counterexample: a second FRAME_START while accumulating produces the
trace [frameStarted 5 1 1, chunkReceived 2, frameStarted 4 1 1] — the old
frame is silently replaced, and no aborted-frame event is reported,
contradicting the claim that an aborted-frame event is emitted. -/
theorem c5_counterexample :
    (runSimple initSimple
        [Token.line ("FRAME_START:5:1:1".data), Token.chunk 2 [1, 2],
         Token.line ("FRAME_START:4:1:1".data)]).2
      = [Ev.frameStarted 5 1 1, Ev.chunkReceived 2, Ev.frameStarted 4 1 1]
    ∧ (runSimple initSimple
        [Token.line ("FRAME_START:5:1:1".data), Token.chunk 2 [1, 2],
         Token.line ("FRAME_START:4:1:1".data)]).2.count Ev.abortedFrame = 0 := by decide

/-- C5 amended: a second FRAME_START while a frame is accumulating discards
the in-progress buffer and begins the new frame immediately with fresh
bookkeeping, with no emission for the aborted frame — but also with no
aborted-frame report: the only event is the normal frame-started log. -/
theorem c5_restart_discards_silently (st : SimpleState) (l : List Char) (s w h : Int)
    (_hrec : st.receivingFrame = true)
    (hl : frameStartTag.isPrefixOf l = true)
    (hh : headerTriple l = some (s, w, h)) :
    stepSimple st (Token.line l) = (⟨[], true, s, w, h⟩, [Ev.frameStarted s w h])
    ∧ (stepSimple st (Token.line l)).2.filter evIsHandoff = []
    ∧ (stepSimple st (Token.line l)).2.count Ev.abortedFrame = 0 := by
  have hstep : stepSimple st (Token.line l) = (⟨[], true, s, w, h⟩, [Ev.frameStarted s w h]) := by
    rw [show stepSimple st (Token.line l) = stepLineSimple st l from rfl,
      routeSimpleFS st hl, frameStartSimple_ok st hh]
  refine ⟨hstep, ?_, ?_⟩
  · rw [hstep]
    simp [evIsHandoff]
  · rw [hstep]
    simp [List.count_cons]

/-- Witness for C5: restart while receiving frame of size 5 with 2 bytes
accumulated. -/
theorem c5_witness :
    ((⟨[1, 2], true, 5, 1, 1⟩ : SimpleState).receivingFrame = true
      ∧ frameStartTag.isPrefixOf ("FRAME_START:4:1:1".data) = true
      ∧ headerTriple ("FRAME_START:4:1:1".data) = some (4, 1, 1))
    ∧ stepSimple (⟨[1, 2], true, 5, 1, 1⟩ : SimpleState)
        (Token.line ("FRAME_START:4:1:1".data))
      = (⟨[], true, 4, 1, 1⟩, [Ev.frameStarted 4 1 1]) :=
  ⟨⟨rfl, by decide, by rfl⟩,
   (c5_restart_discards_silently (⟨[1, 2], true, 5, 1, 1⟩ : SimpleState)
      ("FRAME_START:4:1:1".data) 4 1 1 rfl (by decide) (by rfl)).1⟩

/-- C6 counterexample: a constant command repeated through cycle 10 produces
exactly 1 forward, not the claimed 2 — the delay counter set to 10 at the
initial forward is merely decremented on cycles 2 through 10 and has not yet
reached 0. -/
theorem c6_counterexample :
    forwardCount (List.replicate 10 "Stay") = 1
    ∧ forwardCount (List.replicate 10 "Stay") ≠ 2 := by decide

/-- C6 amended: a command is forwarded exactly when it differs from the last
forwarded command or the delay counter has run out; a change always forwards
immediately; a constant command produces exactly 1 forward through cycle 10,
with the heartbeat re-forward landing on cycle 12 (2 forwards through cycle
12: the initial one and one after the counter, reset to 10, has been
decremented to 0 over cycles 2-11). -/
theorem c6_debounce_behavior :
    (∀ (st : DebounceState) (cmd : String),
      (debounceStep st cmd).2 = true ↔ (cmd ≠ st.lastCommand ∨ st.commandDelay ≤ 0))
    ∧ (∀ (st : DebounceState) (cmd : String),
        cmd ≠ st.lastCommand → (debounceStep st cmd).2 = true)
    ∧ forwardCount (List.replicate 10 "Stay") = 1
    ∧ forwardCount (List.replicate 12 "Stay") = 2
    ∧ (debounceRun initDebounce (List.replicate 12 "Stay")).2
        = true :: (List.replicate 10 false ++ [true]) := by
  refine ⟨?_, ?_, by decide, by decide, by decide⟩
  · intro st cmd
    unfold debounceStep
    by_cases hc : cmd ≠ st.lastCommand ∨ st.commandDelay ≤ 0
    · rw [if_pos hc]
      simp [hc]
    · rw [if_neg hc]
      simp [hc]
  · intro st cmd hne
    unfold debounceStep
    rw [if_pos (Or.inl hne)]

/-- Witness for C6: a changed command is forwarded immediately even with a
full delay counter. -/
theorem c6_witness :
    ("Move Left" ≠ (⟨"Stay", 10⟩ : DebounceState).lastCommand)
    ∧ (debounceStep (⟨"Stay", 10⟩ : DebounceState) "Move Left").2 = true :=
  ⟨by decide,
   c6_debounce_behavior.2.1 (⟨"Stay", 10⟩ : DebounceState) "Move Left" (by decide)⟩

/-- C7: zone classification against a positive reference width puts x in
Left exactly when x < w/3, in Right exactly when x > 2*(w/3), and in Center
otherwise, with both third-boundaries resolving to Center under the strict
comparisons; the concrete classifications at width 300 and the fixed
zone-to-command table agree with the claim, and the command computed by
process_frame is exactly the table applied to the classification. -/
theorem c7_zone_classification (x w : ℚ) (hw : 0 < w) :
    (classify x w = Zone.left ↔ x < w / 3)
    ∧ (classify x w = Zone.right ↔ x > 2 * (w / 3))
    ∧ (classify x w = Zone.center ↔ (¬ x < w / 3 ∧ ¬ x > 2 * (w / 3)))
    ∧ motionCommand x w = commandOfZone (classify x w)
    ∧ classify (w / 3) w = Zone.center
    ∧ classify (2 * (w / 3)) w = Zone.center
    ∧ classify 0 300 = Zone.left
    ∧ classify 100 300 = Zone.center
    ∧ classify 150 300 = Zone.center
    ∧ classify 299 300 = Zone.right
    ∧ commandOfZone Zone.left = "Move Left"
    ∧ commandOfZone Zone.center = "Stay"
    ∧ commandOfZone Zone.right = "Move Right" := by
  have h23 : w / 3 * 2 = 2 * (w / 3) := mul_comm _ _
  refine ⟨?_, ?_, ?_, ?_, ?_, ?_, ?_, ?_, ?_, ?_, rfl, rfl, rfl⟩
  · unfold classify
    split_ifs with h1 h2
    · simp [h1]
    · simp [h1]
    · simp [h1]
  · unfold classify
    split_ifs with h1 h2
    · exact iff_of_false (by simp) (by intro hgt; nlinarith)
    · exact iff_of_true rfl (by linarith)
    · exact iff_of_false (by simp) (fun hgt => h2 (by linarith))
  · unfold classify
    split_ifs with h1 h2
    · exact iff_of_false (by simp) (fun hc => hc.1 h1)
    · exact iff_of_false (by simp) (fun hc => hc.2 (by linarith))
    · exact iff_of_true rfl ⟨h1, fun hgt => h2 (by linarith)⟩
  · unfold classify motionCommand commandOfZone
    split_ifs <;> rfl
  · unfold classify
    rw [if_neg (lt_irrefl _), if_neg (by intro hgt; nlinarith)]
  · unfold classify
    rw [if_neg (by intro hlt; nlinarith), if_neg (by intro hgt; nlinarith)]
  · unfold classify
    rw [if_pos (by norm_num)]
  · unfold classify
    rw [if_neg (by norm_num), if_neg (by norm_num)]
  · unfold classify
    rw [if_neg (by norm_num), if_neg (by norm_num)]
  · unfold classify
    rw [if_neg (by norm_num), if_pos (by norm_num)]

/-- Witness for C7 at x = 0, w = 300. -/
theorem c7_witness :
    (0 : ℚ) < 300
    ∧ (classify 0 300 = Zone.left ↔ (0 : ℚ) < 300 / 3)
    ∧ classify 100 300 = Zone.center :=
  ⟨by norm_num,
   (c7_zone_classification 0 300 (by norm_num)).1,
   (c7_zone_classification 0 300 (by norm_num)).2.2.2.2.2.2.2.1⟩

/-- C8 counterexample: a line with six colon-separated fields after the tag
still parses to a detection (the handlers index only parts[1]..parts[5] and
ignore extras), contradicting the claim that parsing succeeds exactly when
there are exactly 5 fields. -/
theorem c8_counterexample :
    detectFields ("OBJECT_DETECTED:1:2:3:4:5:6".data) = some (1, 2, 3, 4, 5)
    ∧ (splitFields ("OBJECT_DETECTED:1:2:3:4:5:6".data)).length = 7 := by decide

/-- C8 amended: an OBJECT_DETECTED line parses to a detection exactly when
fields 1 through 5 after the tag each parse as integers — at least five
fields suffice and extra trailing fields are ignored; on a missing or
non-integer field among the first five the wired tester reports a parse
error and continues with its state unchanged, and on success it stores the
detection and bumps the count.  The claim's two concrete examples behave as
stated. -/
theorem c8_detection_parse_behavior :
    detectFields ("OBJECT_DETECTED:10:20:30:40:5".data) = some (10, 20, 30, 40, 5)
    ∧ detectFields ("OBJECT_DETECTED:abc:1:2:3:4".data) = none
    ∧ detectFields ("OBJECT_DETECTED:1:2:3:4:5:6".data) = some (1, 2, 3, 4, 5)
    ∧ (∀ (l : List Char) (x y w h m : Int),
        detectFields l = some (x, y, w, h, m) ↔
          (hdrField l 1 = some x ∧ hdrField l 2 = some y ∧ hdrField l 3 = some w ∧
           hdrField l 4 = some h ∧ hdrField l 5 = some m))
    ∧ (∀ (st : WiredState) (l : List Char), objDetTag.isPrefixOf l = true →
        detectFields l = none →
        stepWired st (WToken.text l) = (st, [Ev.detectParseError]))
    ∧ (∀ (st : WiredState) (l : List Char) (x y w h m : Int), objDetTag.isPrefixOf l = true →
        detectFields l = some (x, y, w, h, m) →
        stepWired st (WToken.text l)
          = ({ st with detectionCount := st.detectionCount + 1,
                       currentDetection := some (mkDetection x y w h m) },
             [Ev.objectDetected x y w h m])) := by
  refine ⟨by decide, by decide, by decide, ?_, ?_, ?_⟩
  · intro l x y w h m
    constructor
    · exact detectFieldsParts
    · intro hf
      unfold detectFields
      rw [hf.1, hf.2.1, hf.2.2.1, hf.2.2.2.1, hf.2.2.2.2]
  · intro st l hl hn
    rw [show stepWired st (WToken.text l) = stepTextWired st l from rfl,
      routeWiredOD st hl]
    unfold objDetWired
    rw [hn]
  · intro st l x y w h m hl hp
    rw [show stepWired st (WToken.text l) = stepTextWired st l from rfl,
      routeWiredOD st hl, objDetWired_ok st hp]

/-- Witness for C8: the parse-error path and the success path at concrete
lines fed to the wired tester's initial state. -/
theorem c8_witness :
    (objDetTag.isPrefixOf ("OBJECT_DETECTED:abc:1:2:3:4".data) = true
      ∧ detectFields ("OBJECT_DETECTED:abc:1:2:3:4".data) = none
      ∧ stepWired initWired (WToken.text ("OBJECT_DETECTED:abc:1:2:3:4".data))
          = (initWired, [Ev.detectParseError]))
    ∧ (objDetTag.isPrefixOf ("OBJECT_DETECTED:10:20:30:40:5".data) = true
      ∧ detectFields ("OBJECT_DETECTED:10:20:30:40:5".data) = some (10, 20, 30, 40, 5)
      ∧ stepWired initWired (WToken.text ("OBJECT_DETECTED:10:20:30:40:5".data))
          = ({ initWired with detectionCount := 1,
                              currentDetection := some (mkDetection 10 20 30 40 5) },
             [Ev.objectDetected 10 20 30 40 5])) :=
  ⟨⟨by decide, by rfl,
    c8_detection_parse_behavior.2.2.2.2.1 initWired
      ("OBJECT_DETECTED:abc:1:2:3:4".data) (by decide) (by rfl)⟩,
   ⟨by decide, by rfl,
    c8_detection_parse_behavior.2.2.2.2.2 initWired
      ("OBJECT_DETECTED:10:20:30:40:5".data) 10 20 30 40 5 (by decide) (by rfl)⟩⟩

/-- C9 counterexample: `FRAME_START:0:10:10` (size 0, non-positive) is
accepted and moves the simple receiver into accumulation rather than staying
idle; and on `FRAME_START:7:abc:3` the failed parse still overwrites the
stored expected size (100 becomes 7) before the error is caught, so the
reassembly state is not left unchanged. -/
theorem c9_counterexample :
    (stepSimple initSimple (Token.line ("FRAME_START:0:10:10".data))).1.receivingFrame = true
    ∧ (stepSimple (⟨[], false, 100, 0, 0⟩ : SimpleState)
        (Token.line ("FRAME_START:7:abc:3".data))).1.expectedFrameSize = 7 := by decide

/-- C9 amended: on a FRAME_START line, both receivers parse and store the
three fields one at a time (size, width, height for the simple display;
width, height, size for the wired tester).  If every field parses — any
integer values, including a zero or negative size — the receiver starts
accumulating with a fresh buffer.  If a field fails to parse, it reports a
header parse error and does not start accumulating (receiving flag and
buffer untouched), but the fields parsed before the failure are already
committed to the state. -/
theorem c9_header_parse_behavior :
    (∀ (st : SimpleState) (l : List Char) (s w h : Int),
      frameStartTag.isPrefixOf l = true → headerTriple l = some (s, w, h) →
      stepSimple st (Token.line l) = (⟨[], true, s, w, h⟩, [Ev.frameStarted s w h]))
    ∧ (∀ (st : SimpleState) (l : List Char),
      frameStartTag.isPrefixOf l = true → hdrField l 1 = none →
      stepSimple st (Token.line l) = (st, [Ev.headerParseError]))
    ∧ (∀ (st : SimpleState) (l : List Char) (s : Int),
      frameStartTag.isPrefixOf l = true → hdrField l 1 = some s → hdrField l 2 = none →
      stepSimple st (Token.line l) = ({ st with expectedFrameSize := s }, [Ev.headerParseError]))
    ∧ (∀ (st : SimpleState) (l : List Char) (s w : Int),
      frameStartTag.isPrefixOf l = true → hdrField l 1 = some s → hdrField l 2 = some w →
      hdrField l 3 = none →
      stepSimple st (Token.line l)
        = ({ st with expectedFrameSize := s, frameWidth := w }, [Ev.headerParseError]))
    ∧ (∀ (st : WiredState) (l : List Char) (a b c : Int),
      frameStartTag.isPrefixOf l = true → headerTriple l = some (a, b, c) →
      stepWired st (WToken.text l)
        = ({ st with frameWidth := a, frameHeight := b, expectedFrameSize := c,
                     receivingFrame := true, frameBuffer := [] },
           [Ev.frameStarted c a b]))
    ∧ (∀ (st : WiredState) (l : List Char),
      frameStartTag.isPrefixOf l = true → hdrField l 1 = none →
      stepWired st (WToken.text l) = (st, [Ev.headerParseError]))
    ∧ (∀ (st : WiredState) (l : List Char) (a : Int),
      frameStartTag.isPrefixOf l = true → hdrField l 1 = some a → hdrField l 2 = none →
      stepWired st (WToken.text l) = ({ st with frameWidth := a }, [Ev.headerParseError]))
    ∧ (∀ (st : WiredState) (l : List Char) (a b : Int),
      frameStartTag.isPrefixOf l = true → hdrField l 1 = some a → hdrField l 2 = some b →
      hdrField l 3 = none →
      stepWired st (WToken.text l)
        = ({ st with frameWidth := a, frameHeight := b }, [Ev.headerParseError])) := by
  refine ⟨?_, ?_, ?_, ?_, ?_, ?_, ?_, ?_⟩
  · intro st l s w h hl hh
    rw [show stepSimple st (Token.line l) = stepLineSimple st l from rfl,
      routeSimpleFS st hl, frameStartSimple_ok st hh]
  · intro st l hl h1
    rw [show stepSimple st (Token.line l) = stepLineSimple st l from rfl,
      routeSimpleFS st hl]
    unfold frameStartSimple
    rw [h1]
  · intro st l s hl h1 h2
    rw [show stepSimple st (Token.line l) = stepLineSimple st l from rfl,
      routeSimpleFS st hl]
    unfold frameStartSimple
    rw [h1, h2]
  · intro st l s w hl h1 h2 h3
    rw [show stepSimple st (Token.line l) = stepLineSimple st l from rfl,
      routeSimpleFS st hl]
    unfold frameStartSimple
    rw [h1, h2, h3]
  · intro st l a b c hl hh
    rw [show stepWired st (WToken.text l) = stepTextWired st l from rfl,
      routeWiredFS st hl, frameStartWired_ok st hh]
  · intro st l hl h1
    rw [show stepWired st (WToken.text l) = stepTextWired st l from rfl,
      routeWiredFS st hl]
    unfold frameStartWired
    rw [h1]
  · intro st l a hl h1 h2
    rw [show stepWired st (WToken.text l) = stepTextWired st l from rfl,
      routeWiredFS st hl]
    unfold frameStartWired
    rw [h1, h2]
  · intro st l a b hl h1 h2 h3
    rw [show stepWired st (WToken.text l) = stepTextWired st l from rfl,
      routeWiredFS st hl]
    unfold frameStartWired
    rw [h1, h2, h3]

/-- Witness for C9: in both receivers, the accepted zero-size header and the
partially committed failed header at concrete inputs. -/
theorem c9_witness :
    (frameStartTag.isPrefixOf ("FRAME_START:0:10:10".data) = true
      ∧ headerTriple ("FRAME_START:0:10:10".data) = some (0, 10, 10)
      ∧ stepSimple initSimple (Token.line ("FRAME_START:0:10:10".data))
          = (⟨[], true, 0, 10, 10⟩, [Ev.frameStarted 0 10 10]))
    ∧ (frameStartTag.isPrefixOf ("FRAME_START:7:abc:3".data) = true
      ∧ hdrField ("FRAME_START:7:abc:3".data) 1 = some 7
      ∧ hdrField ("FRAME_START:7:abc:3".data) 2 = none
      ∧ stepSimple (⟨[], false, 100, 0, 0⟩ : SimpleState)
          (Token.line ("FRAME_START:7:abc:3".data))
          = (⟨[], false, 7, 0, 0⟩, [Ev.headerParseError]))
    ∧ (headerTriple ("FRAME_START:10:10:0".data) = some (10, 10, 0)
      ∧ stepWired initWired (WToken.text ("FRAME_START:10:10:0".data))
          = (⟨none, 0, true, [], 0, 10, 10⟩, [Ev.frameStarted 0 10 10]))
    ∧ stepWired initWired (WToken.text ("FRAME_START:7:abc:3".data))
        = (⟨none, 0, false, [], 0, 7, 240⟩, [Ev.headerParseError]) :=
  ⟨⟨by decide, by rfl,
    c9_header_parse_behavior.1 initSimple ("FRAME_START:0:10:10".data) 0 10 10
      (by decide) (by rfl)⟩,
   ⟨by decide, by rfl, by rfl,
    c9_header_parse_behavior.2.2.1 (⟨[], false, 100, 0, 0⟩ : SimpleState)
      ("FRAME_START:7:abc:3".data) 7 (by decide) (by rfl) (by rfl)⟩,
   ⟨by rfl,
    c9_header_parse_behavior.2.2.2.2.1 initWired ("FRAME_START:10:10:0".data) 10 10 0
      (by decide) (by rfl)⟩,
   c9_header_parse_behavior.2.2.2.2.2.2.1 initWired
      ("FRAME_START:7:abc:3".data) 7 (by decide) (by rfl) (by rfl)⟩

/-- C10: the OBJECT_DETECTED command uses the hard-coded reference width 320:
the stored detection depends only on the parsed fields — two runs from
arbitrarily different states (in particular states holding different
header-announced widths and heights) store the same detection for the same
line — its command is a function of x alone, identical across the three
scripts' handlers, with thresholds 320/3 and 2*(320/3). -/
theorem c10_hardcoded_reference_width (st st2 : WiredState) (l : List Char)
    (x y w h m : Int)
    (hl : objDetTag.isPrefixOf l = true)
    (hp : detectFields l = some (x, y, w, h, m)) :
    (stepWired st (WToken.text l)).1.currentDetection = some (mkDetection x y w h m)
    ∧ (stepWired st (WToken.text l)).1.currentDetection
        = (stepWired st2 (WToken.text l)).1.currentDetection
    ∧ (mkDetection x y w h m).command = (detectCommandZone (x : ℚ)).1
    ∧ (detectCommandZone (x : ℚ)).1 = directDetectCommand (x : ℚ)
    ∧ (detectCommandZone (x : ℚ)).1 = (simpleDisplayCommandZone (x : ℚ)).1
    ∧ ((detectCommandZone (x : ℚ)).1 = "Move Left" ↔ (x : ℚ) < 320 / 3)
    ∧ ((detectCommandZone (x : ℚ)).1 = "Move Right" ↔ (x : ℚ) > 2 * ((320 : ℚ) / 3))
    ∧ ((detectCommandZone (x : ℚ)).1 = "Stay" ↔
        (¬ (x : ℚ) < 320 / 3 ∧ ¬ (x : ℚ) > 2 * ((320 : ℚ) / 3))) := by
  have hone : (stepWired st (WToken.text l)).1.currentDetection
      = some (mkDetection x y w h m) := by
    rw [show stepWired st (WToken.text l) = stepTextWired st l from rfl,
      routeWiredOD st hl, objDetWired_ok st hp]
  have htwo : (stepWired st2 (WToken.text l)).1.currentDetection
      = some (mkDetection x y w h m) := by
    rw [show stepWired st2 (WToken.text l) = stepTextWired st2 l from rfl,
      routeWiredOD st2 hl, objDetWired_ok st2 hp]
  refine ⟨hone, by rw [hone, htwo], rfl, ?_, ?_, ?_, ?_, ?_⟩
  · unfold detectCommandZone directDetectCommand
    split_ifs <;> rfl
  · unfold detectCommandZone simpleDisplayCommandZone
    split_ifs <;> rfl
  · unfold detectCommandZone
    split_ifs with h1 h2
    · exact iff_of_true rfl h1
    · exact iff_of_false (by decide) (fun hlt => by nlinarith)
    · exact iff_of_false (by decide) h1
  · unfold detectCommandZone
    split_ifs with h1 h2
    · exact iff_of_false (by decide) (fun hgt => by nlinarith)
    · exact iff_of_true rfl (by linarith)
    · exact iff_of_false (by decide) (fun hgt => h2 (by linarith))
  · unfold detectCommandZone
    split_ifs with h1 h2
    · exact iff_of_false (by decide) (fun hc => hc.1 h1)
    · exact iff_of_false (by decide) (fun hc => hc.2 (by linarith))
    · exact iff_of_true rfl ⟨h1, fun hgt => h2 (by linarith)⟩

/-- Witness for C10: the same detection line fed to the initial state and to
a state whose frame headers announced different dimensions. -/
theorem c10_witness :
    (objDetTag.isPrefixOf ("OBJECT_DETECTED:10:20:30:40:5".data) = true
      ∧ detectFields ("OBJECT_DETECTED:10:20:30:40:5".data) = some (10, 20, 30, 40, 5))
    ∧ (stepWired initWired
        (WToken.text ("OBJECT_DETECTED:10:20:30:40:5".data))).1.currentDetection
        = some (mkDetection 10 20 30 40 5)
    ∧ (stepWired initWired
        (WToken.text ("OBJECT_DETECTED:10:20:30:40:5".data))).1.currentDetection
        = (stepWired (⟨none, 0, false, [], 0, 640, 480⟩ : WiredState)
            (WToken.text ("OBJECT_DETECTED:10:20:30:40:5".data))).1.currentDetection :=
  ⟨⟨by decide, by rfl⟩,
   (c10_hardcoded_reference_width initWired (⟨none, 0, false, [], 0, 640, 480⟩ : WiredState)
      ("OBJECT_DETECTED:10:20:30:40:5".data) 10 20 30 40 5 (by decide) (by rfl)).1,
   (c10_hardcoded_reference_width initWired (⟨none, 0, false, [], 0, 640, 480⟩ : WiredState)
      ("OBJECT_DETECTED:10:20:30:40:5".data) 10 20 30 40 5 (by decide) (by rfl)).2.1⟩
